import Mathlib

/-!
Verification of the sprinkler-irrigation design engine of
`sprinkler_design_app.py`.

The engine (`compute_irrigation_design`) reads a dictionary of nine
numeric inputs, performs closed-form hydraulic calculations on Python
floats, and returns either a fully populated results dictionary or a
dictionary `{"error": str(e)}` when an exception is raised inside the
`try` block.  We embed the arithmetic over `ℚ` (exact rationals): every
formula in the source is a composition of `+ - * /` on decimal literals,
so the rational model computes the same real numbers the float code
approximates, and every tolerance checked below (±0.01, ±0.05) is far
wider than double-precision rounding error.  Division by zero, which in
Python raises `ZeroDivisionError("float division by zero")` caught by the
surrounding `try`, is modelled by explicit guards placed where the first
offending division occurs.
-/

/-- Python `int(x)` applied to a numeric value: truncation toward zero. -/
def pyInt (q : ℚ) : ℤ := if 0 ≤ q then ⌊q⌋ else ⌈q⌉

/-- The nine named input fields read from the GUI entry boxes
(`build_inputs_column`), in row order.  `compute_irrigation_design`
receives all nine in its `inputs` dict but reads only six of them. -/
structure DesignInputs where
  /-- "Field Length EW (m)" -/
  fieldLengthEW : ℚ
  /-- "Field Width NS (m)" -/
  fieldWidthNS : ℚ
  /-- "Design Crop ET (mm/day)" -/
  designCropET : ℚ
  /-- "Evaporation Loss (%)" -/
  evaporationLossPct : ℚ
  /-- "Irrigation Time (hours/day)" -/
  irrigationTime : ℚ
  /-- "Sprinkler Spacing X (m) [EW]" -/
  sprinklerSpacingX : ℚ
  /-- "Sprinkler Spacing Y (m) [NS]" -/
  sprinklerSpacingY : ℚ
  /-- "Number of Zones (N_EW x N_NS)" -/
  zoneCount : ℚ
  /-- "End of Lateral Pressure (kPa)" -/
  endOfLateralPressure : ℚ

/-- The result dictionary returned by `compute_irrigation_design` on
success, one field per dictionary key, in the order of the source's
`return` statement. -/
structure DesignResults where
  A_total_m2 : ℚ
  ET_DESIGN_MM_DAY : ℚ
  D_gross_m_day : ℚ
  Q_total_GPM : ℚ
  V_pump_m3_day : ℚ
  Q_total_m3_s : ℚ
  Q_total_L_s : ℚ
  V_crop_m3_day : ℚ
  Q_total_m3_hr : ℚ
  N_sprinkler_total : ℤ
  N_zones : ℤ
  N_spr_zone : ℤ
  Q_zone_GPM : ℚ
  qs_L_s : ℚ
  H_op_m : ℚ
  H_op_ft : ℚ
  H_end_m : ℚ
  H_lat_loss_m : ℚ
  H_sub_loss_m : ℚ
  H_mainline_loss_m : ℚ
  H_fittings_loss_m : ℚ
  BHP : ℚ
  system_curve_points : List (ℚ × ℚ)
  L_zone_EW : ℚ
  L_zone_NS : ℚ
  h_f_80mm_lat : ℚ

/-- The body of the `try` block of `compute_irrigation_design`
(src/sprinkler_design_app.py, lines 23-101), assuming no division by
zero occurs.  Every binding mirrors one assignment of the source, with
the source's decimal literals kept exactly. -/
def computeDesignCore (inputs : DesignInputs) : DesignResults :=
  -- --- 1. Get Inputs ---
  let L_EW := inputs.fieldLengthEW
  let W_NS := inputs.fieldWidthNS
  let ET_DESIGN_MM_DAY := inputs.designCropET
  let EVAP_LOSS := inputs.evaporationLossPct / 100
  let N_zones : ℤ := pyInt inputs.zoneCount
  let P_end_lateral_kPa := inputs.endOfLateralPressure
  -- Fixed Design Parameters (from source document pipe sizing)
  let H_MAINLINE_LOSS_M : ℚ := 2.574
  let H_FITTINGS_LOSS_M : ℚ := 4.0    -- 2.0 m solenoid + 2.0 m pump fittings
  let H_lat_loss_m : ℚ := 0.795       -- 100 mm lateral friction loss
  let H_sub_loss_m : ℚ := 0.642       -- 100 mm submain friction loss
  -- --- 2. Calculate Total Required Flow Rate (Q_total) ---
  let A_total_m2 := L_EW * W_NS
  let D_gross_m_day := (ET_DESIGN_MM_DAY / 1000) / (1 - EVAP_LOSS)
  let V_crop_m3_day := A_total_m2 * (ET_DESIGN_MM_DAY / 1000)
  let V_pump_m3_day := V_crop_m3_day / (1 - EVAP_LOSS)
  let Q_total_m3_s := V_pump_m3_day / (24 * 3600)
  let Q_total_GPM := Q_total_m3_s * 15850.323
  -- --- 3. Zone Configuration ---
  let N_spr_zone : ℤ := 33 * 41       -- 1,353 sprinklers per zone
  -- --- 4. Zone Flow (Qzone) and Sprinkler Flow (qs) ---
  let Q_zone_GPM := Q_total_GPM / (N_zones : ℚ)
  let Q_zone_L_s := Q_zone_GPM * (3.78541 / 60)
  let qs_L_s := Q_zone_L_s / (N_spr_zone : ℚ)
  -- --- 5. Operating Head Calculation (H_op) ---
  let H_end_m := P_end_lateral_kPa / 9.806
  -- Total Dynamic Head (TDH)
  let H_op_m := H_end_m + H_lat_loss_m + H_sub_loss_m + H_MAINLINE_LOSS_M + H_FITTINGS_LOSS_M
  let H_op_ft := H_op_m * 3.28084
  -- System Curve Points (Qzone/TDH, based on source table)
  let system_curve_points : List (ℚ × ℚ) :=
    [(125.08, 51.74),   -- 80% flow
     (156.35, 60.73),   -- 100% design flow
     (187.62, 72.22)]   -- 120% flow
  -- Pump Power Calculation: BHP = (Q * H) / (3960 * eta); eta = 0.70
  let BHP := (Q_zone_GPM * H_op_ft) / (3960 * 0.70)
  { A_total_m2 := A_total_m2
    ET_DESIGN_MM_DAY := ET_DESIGN_MM_DAY
    D_gross_m_day := D_gross_m_day * 1000
    Q_total_GPM := Q_total_GPM
    V_pump_m3_day := V_pump_m3_day
    Q_total_m3_s := Q_total_m3_s
    Q_total_L_s := Q_total_m3_s * 1000
    V_crop_m3_day := V_crop_m3_day
    Q_total_m3_hr := V_pump_m3_day / 24
    N_sprinkler_total := N_spr_zone * N_zones
    N_zones := N_zones
    N_spr_zone := N_spr_zone
    Q_zone_GPM := Q_zone_GPM
    qs_L_s := qs_L_s
    H_op_m := H_op_m
    H_op_ft := H_op_ft
    H_end_m := H_end_m
    H_lat_loss_m := H_lat_loss_m
    H_sub_loss_m := H_sub_loss_m
    H_mainline_loss_m := H_MAINLINE_LOSS_M
    H_fittings_loss_m := H_FITTINGS_LOSS_M
    BHP := BHP
    system_curve_points := system_curve_points
    L_zone_EW := L_EW / 2
    L_zone_NS := W_NS / 2
    h_f_80mm_lat := 2.36 }

/-- `compute_irrigation_design`: the `try` body together with the
`except Exception as e: return {"error": str(e)}` handler.  In Python the
first division by zero occurs at `D_gross_m_day` when
`1 - EVAP_LOSS == 0`, and otherwise at `Q_zone_GPM` when `N_zones == 0`;
both raise `ZeroDivisionError("float division by zero")`, so the caught
result is `{"error": "float division by zero"}`.  Any other numeric
input runs the body to completion. -/
def compute_irrigation_design (inputs : DesignInputs) : Except String DesignResults :=
  if 1 - inputs.evaporationLossPct / 100 = 0 then
    Except.error "float division by zero"
  else if pyInt inputs.zoneCount = 0 then
    Except.error "float division by zero"
  else
    Except.ok (computeDesignCore inputs)

/-- The default input record pre-filled in the GUI entry boxes, which is
also the canonical design scenario of the spec (Question 1). -/
def canonicalInputs : DesignInputs :=
  { fieldLengthEW := 500
    fieldWidthNS := 400
    designCropET := 15
    evaporationLossPct := 12
    irrigationTime := 24
    sprinklerSpacingX := 6.1
    sprinklerSpacingY := 6.1
    zoneCount := 4
    endOfLateralPressure := 103 }

/-- Fixed-point rendering of a rational to `n` decimal places, the
model of Python's `f"{x:.nf}"` format on the exact value: round
`x * 10^n` to the nearest integer and insert the decimal point.  (Ties,
which the claims never exercise, round half-up here.) -/
def fmtFixed (q : ℚ) (n : ℕ) : String :=
  let scaled : ℤ := round (q * (10 : ℚ) ^ n)
  let sign := if scaled < 0 then "-" else ""
  let a := scaled.natAbs
  let ip := a / 10 ^ n
  let fp := a % 10 ^ n
  let fpDigits := toString fp
  let fpPadded := String.mk (List.replicate (n - fpDigits.length) '0') ++ fpDigits
  if n = 0 then sign ++ toString ip
  else sign ++ toString ip ++ "." ++ fpPadded

/-- `_generate_report_content(self, r)` (src/sprinkler_design_app.py,
lines 599-743): the report string written to the `io.StringIO` buffer,
one list element per `output.write` call, in source order.  The method
never reads `self` apart from `r`, performs no I/O besides the local
string buffer, and contains no timestamp; it is a function of the
results record alone. -/
def _generate_report_content (r : DesignResults) : String :=
  String.join
    [ "Question 1\n\n"
    , "Data given:\n\n"
    , "Total crop water requirement and pump flow (daily and instantaneous)\n\n"
    , "1. Net crop (ET)/day = 15 mm/day = 0.015 m/day.\n"
    , "2. Area(A) = 400 x 500 = " ++ fmtFixed r.A_total_m2 0 ++ " m^2 (= 49.421 acres).\n"
    , "3. (volume) Net crop water required per day:\n"
    , "V_crop = Area x ET = 200,000 m^2 x 0.015 m/day = " ++ fmtFixed r.V_crop_m3_day 0 ++ " m^3/day.\n"
    , "4. Sprinkler evaporation loss (12%). The pumped volume requirement:\n"
    , "V_pump = V_crop / (1 - 0.12) = 3,000 / 0.88 = " ++ fmtFixed r.V_pump_m3_day 3 ++ " m^3/day.\n\n"
    , "* Per day: " ++ fmtFixed r.V_pump_m3_day 2 ++ " m^3/day.\n"
    , "* Per second: " ++ fmtFixed (r.V_pump_m3_day / (24 * 3600)) 7 ++ " m^3/s.\n"
    , "* Gallons/minute: 0.039 m^3/s x 15,850.323 gpm/(m^3/s) = " ++ fmtFixed r.Q_total_GPM 2 ++ " gpm.\n"
    , "* Pumped water (for evaporation loss) = " ++ fmtFixed r.V_pump_m3_day 2 ++ " m^3/day = "
        ++ fmtFixed r.Q_total_m3_s 4 ++ " m^3/s = " ++ fmtFixed r.Q_total_GPM 1 ++ " gpm.\n"
    , "* Net crop need = " ++ fmtFixed r.V_crop_m3_day 0 ++ " m^3/day.\n"
    , "* /hour: " ++ fmtFixed r.V_pump_m3_day 2 ++ "/24 = " ++ fmtFixed r.Q_total_m3_hr 3 ++ " m^3/hr.\n"
    , "* Area = " ++ fmtFixed r.A_total_m2 0 ++ " m^2 (= 49.42 acres).\n\n"
    , "zone geometry - Sprinkler & layout counts\n\n"
    , "Field partition: " ++ toString r.N_zones ++ " zones (2 in N–S, 2 in E–W). Each zone = 50,000 m^2. I apply rectangular measurements to each zone that align with how the field is positioned\n"
    , "* Zone N–S length = " ++ fmtFixed r.L_zone_NS 0 ++ " m, EW length = " ++ fmtFixed r.L_zone_EW 0 ++ " m spacing 6.1 m:\n"
    , "* Sprinklers per lateral (lateral runs N–S): sprinklers per lateral = 200/6.1 = 33 -> hence I entered 33 under Sprinklers in my excel workbook.\n"
    , "* Number of laterals per zone (across EW): 250/6.1 = 41 -> choose 41 laterals.\n"
    , "So per zone: 41 laterals x 33 sprinklers/lateral = "
        ++ fmtFixed ((r.N_sprinkler_total : ℚ) / (r.N_zones : ℚ)) 0
        ++ " sprinklers per zone (consistent with area/spacing).\n\n"
    , "Per-lateral flow (full lateral): 33 x (198 gpm/33) = 198 gpm. With mid-point feeding, each half-lateral carries 99 gpm (0.0062459 m^3/s) over 100 m (200/2).\n\n"
    , "Typical design targets:\n"
    , "Component | Recommended Velocity | Notes/Details\n"
    , "---|---|---\n"
    , "Laterals | 0.7 to 1.5 m/s | Lower is acceptable; higher velocities risk pipe damage/erosion.\n"
    , "Submains & Mainlines | 0.5 to 1.5 m/s | Tradeoff between pipeline cost efficiency and limiting head loss.\n"
    , "Hazen-Williams C | 130 | Assumed value for new PVC pipe (adjust for older pipe or different materials like ductile iron).\n\n"
    , "Using Hazen–Williams\n"
    , "h_f = 10.67 * L * (Q^1.852) / (C^1.852 * D^4.87)\n"
    , "where: h_f in meters, L in meters, Q in m³/s, D in meters.\n\n"
    , "Design lateral half-flow (half-lateral): 99 gpm = 0.00624593 m³/s over half-lateral length L = 100 m.\n\n"
    , "Lateral Sizing - Head Loss Across Half-Lateral:\n"
    , "Nominal | D (m) | hf (half-lateral, 100 m) (m) | velocity (m/s)\n"
    , "---|---|---|---\n"
    , "25 mm (1\") | 0.025 | 680 m (unusable) | 12.7 m/s\n"
    , "32 mm | 0.032 | 204 m (unusable) | 7.77 m/s\n"
    , "40 mm | 0.040 | 69.0 m (unusable) | 4.97 m/s\n"
    , "50 mm (2\") | 0.050 | 23.3 m | 3.18 m/s\n"
    , "65 mm | 0.065 | 6.48 m | 1.88 m/s\n"
    , "80 mm (3\") | 0.080 | " ++ fmtFixed r.h_f_80mm_lat 2 ++ " m | 1.24 m/s\n"
    , "100 mm (4\") | 0.100 | " ++ fmtFixed r.H_lat_loss_m 3 ++ " m | 0.795 m/s\n"
    , "Selected lateral diameter 100 mm (4\").\n"
    , "* A 4\" pipe yields 0.80 m friction loss over the 100 m half-lateral with 0.8 m/s velocity.\n"
    , "* A 3\" (80 mm) pipe results in 2.36 m loss—too high, unacceptably reducing sprinkler pressure.\n\n"
    , "Submain sizing\n"
    , "Half-submain flow = zone_flow/2 = 156.35 gpm / 2 = 78.18 gpm = 0.004932 m³/s.\n"
    , "Half-submain length = 125 m.\n\n"
    , "Submain Sizing - Head Loss Across Half-Submain:\n"
    , "Nominal | D (m) | hf (125 m, half-submain)(m) | velocity (m/s)\n"
    , "---|---|---|---\n"
    , "100 mm (4\") | 0.100 | " ++ fmtFixed r.H_sub_loss_m 3 ++ " m | 0.628 m/s\n"
    , "125 mm (5\") | 0.125 | 0.217 m | 0.402 m/s\n"
    , "150 mm (6\") | 0.150 | 0.089 m | 0.279 m/s\n"
    , "We can choose 100 mm (4\") for the submain.\n"
    , "* Half-submain loss is 0.64 m; combined with lateral half-loss, the worst-case total is 1.437 m (acceptable for TDH calculations).\n\n"
    , "Mainline Sizing - Head Loss Across 1,000 m:\n"
    , "Nominal | D (m) | hf (1,000 m) (m) at 156.35gpm | velocity (m/s)\n"
    , "---|---|---|---\n"
    , "100 mm (4\") | 0.100 | 18.54 m (too large) | 1.256 m/s\n"
    , "150 mm (6\") | 0.150 | " ++ fmtFixed r.H_mainline_loss_m 3 ++ " m | 0.558 m/s\n"
    , "200 mm (8\") | 0.200 | 0.634 m | 0.314 m/s\n"
    , "Selection: 150 mm (6\") mainline. 6\" gives hf = 2.57 m which is below the 3 m limit and is economical.\n\n"
    , "Finding total head:\n"
    , "Total head (pump TDH): assemble static + friction + fittings\n\n"
    , "* Required head at sprinkler (static) H_end = 103 kPa = " ++ fmtFixed r.H_end_m 2 ++ " m.\n"
    , "* Half-lateral friction (design with D = 100 mm) = " ++ fmtFixed r.H_lat_loss_m 3 ++ " m.\n"
    , "* Half-submain friction (D = 100 mm) = " ++ fmtFixed r.H_sub_loss_m 3 ++ " m.\n"
    , "* Mainline friction (1,000 m, D = 150 mm) = " ++ fmtFixed r.H_mainline_loss_m 3 ++ " m.\n"
    , "* Valve & pump fittings (given allowances) = 2.0 m (solenoid / valve) + 2.0 m (pump fittings) = 4.0 m.\n\n"
    , "Total TDH :\n"
    , "TDH = 10.50 + 0.795 + 0.642 + 2.574 + 4.0 = " ++ fmtFixed r.H_op_m 3 ++ " m.\n\n"
    , "Changing TDH(m) to feet (for pump curves / horsepower):\n"
    , "H_ft = " ++ fmtFixed r.H_op_m 3 ++ " x 3.28084 = " ++ fmtFixed r.H_op_ft 2 ++ " ft.\n\n"
    , "Operating flow design (one zone active) = " ++ fmtFixed r.Q_zone_GPM 2 ++ " gpm at = "
        ++ fmtFixed r.H_op_m 2 ++ " m (" ++ fmtFixed r.H_op_ft 2 ++ " ft).\n\n"
    , "Construction of the system curve:\n"
    , "Flows (gpm): 125.08, 156.35 (design), 187.62.\n"
    , "For each flow, scaled each head-loss term with (Q/Q_design)^1.852 and recalculated TDH as: TDH(Q) = H_end + h_lat_half(Q) + h_sub_half(Q) + h_main(Q) + 4.0.\n\n"
    , "System Curve Points:\n"
    , "Flow Rate (gpm) | Flow Rate (m3/hr) | Total Dynamic Head (m) | Total Dynamic Head (ft) | Comments\n"
    , "---|---|---|---|---\n"
    , String.join (r.system_curve_points.map (fun p =>
        let q_gpm := p.1
        let h_ft := p.2
        let q_m3_hr := q_gpm * 3.78541 * 60 / 1000
        let h_m := h_ft / 3.28084
        let comment :=
          if q_gpm = 156.35 then "Design Point (100%)"
          else if q_gpm < 156.35 then "80% of Design Flow"
          else "120% of Design Flow"
        fmtFixed q_gpm 2 ++ " | " ++ fmtFixed q_m3_hr 2 ++ " | " ++ fmtFixed h_m 2 ++ " | "
          ++ fmtFixed h_ft 2 ++ " | " ++ comment ++ "\n"))
    , "\nPump selection, operating point, efficiency and motor size\n"
    , "Design operating point: " ++ fmtFixed r.H_op_ft 2 ++ " ft (" ++ fmtFixed r.H_op_m 2 ++ " m).\n"
    , "Estimating pump power: apply the hydraulic brake horsepower (BHP) formula in US units:\n"
    , "BHP = (Q(gpm) x H(ft)) / (3960 x eta). Assuming a typical pump efficiency eta = 0.70.\n"
    , "BHP = 156.35 x 60.73 / (3960 x 0.70) = " ++ fmtFixed r.BHP 2 ++ " HP.\n"
    , "I\x27ll select the next standard motor size above the calculated Brake Horsepower (BHP).\n"
    , "My practical recommendation is a 5 HP motor to safely cover the required BHP.\n"
    , "\nSUMMARY TABLE:\n"
    , "Section/Parameter | Value (Metric) | Value (US Customary) | Notes\n"
    , "---|---|---|---\n"
    , "I. Property & General Requirements | | | \n"
    , "Area | 200,000 m2 | 49.42 acres | 400 m (N-S) x 500 m (E-W)\n"
    , "Design Crop ET (Net) | 15 mm/day | N/A |\n"
    , "Evaporation Loss | 12% | 12% |\n"
    , "Operation Time | 24 h/day | 24 h/day |\n"
    , "Required Pumped Flow (Qtotal) | " ++ fmtFixed r.Q_total_m3_s 5 ++ " m3/s (3,409.09 m3/day) | "
        ++ fmtFixed r.Q_total_GPM 2 ++ " gpm |\n"
    , "Active Zone Flow (Qzone) | " ++ fmtFixed (r.Q_zone_GPM * 3.78541 / 60) 5 ++ " m3/s (35.55 m3/hr) | "
        ++ fmtFixed r.Q_zone_GPM 2 ++ " gpm | Assumes 4 zones, 1 active.\n"
    , "Lateral End Pressure | 103 kPa | " ++ fmtFixed r.H_end_m 2 ++ " m (34.45 ft) | Required minimum pressure.\n"
    , "Hazen-Williams C | 130 | 130 | Assumed for new PVC.\n"
    , "II. Hydraulic Design Summary | | | \n"
    , "Lateral Pipe Size | 100 mm | 4\" |\n"
    , "Max Lateral Velocity | 0.795 m/s | N/A | For 100 m half-lateral.\n"
    , "Submain Pipe Size | 100 mm | 4\" |\n"
    , "Max Submain Velocity | 0.63 m/s | N/A | For 125 m half-submain.\n"
    , "Mainline Pipe Size | 150 mm | 6\" |\n"
    , "Mainline Head Loss | " ++ fmtFixed r.H_mainline_loss_m 3 ++ " m | "
        ++ fmtFixed (r.H_mainline_loss_m * 3.28084) 2 ++ " ft | Over 1000 m run; meets <3 m limit.\n"
    , "IV. Pump & Motor Selection | | | \n"
    , "Required TDH at Design Q | " ++ fmtFixed r.H_op_m 2 ++ " m | " ++ fmtFixed r.H_op_ft 2
        ++ " ft | Sum of static head + losses (4.0 m fittings, etc.).\n"
    , "Estimated BHP | N/A | " ++ fmtFixed r.BHP 2 ++ " HP | Assumes 70% efficiency.\n"
    , "Recommended Motor Size | N/A | 5 HP | Next standard size above BHP.\n" ]

/-- The canonical scenario with a single zone: the zone flow equals the
total flow (≈ 625.41 GPM), so the hard-coded 125.08 GPM curve point is
not 80% of the design zone flow. -/
def singleZoneInputs : DesignInputs := { canonicalInputs with zoneCount := 1 }

/-- The canonical scenario with `evaporationLossPct = 150`: out of the
claimed validity domain (≥ 100), yet no division by zero occurs. -/
def overLossInputs : DesignInputs := { canonicalInputs with evaporationLossPct := 150 }

/-- The canonical scenario with `evaporationLossPct = 100`: the gross
depth division raises `ZeroDivisionError`. -/
def fullLossInputs : DesignInputs := { canonicalInputs with evaporationLossPct := 100 }

/-- The canonical scenario at both boundary values of claim C6. -/
def boundaryInputs : DesignInputs :=
  { canonicalInputs with evaporationLossPct := 0, zoneCount := 1 }

/-- The canonical scenario with different values in the three input
fields that `compute_irrigation_design` never reads. -/
def variantInputs : DesignInputs :=
  { canonicalInputs with irrigationTime := 12, sprinklerSpacingX := 7.5,
                         sprinklerSpacingY := 8.2 }

lemma one_le_pyInt {q : ℚ} (h : 1 ≤ q) : 1 ≤ pyInt q := by
  unfold pyInt
  rw [if_pos (le_trans zero_le_one h)]
  exact Int.le_floor.mpr (by exact_mod_cast h)

/-- On the claimed validity domain the two division-by-zero guards are
inactive and the calculator returns the core results. -/
lemma compute_eq_ok_of_valid (i : DesignInputs)
    (hev : i.evaporationLossPct < 100) (hz : 1 ≤ i.zoneCount) :
    compute_irrigation_design i = Except.ok (computeDesignCore i) := by
  have h1 : ¬(1 - i.evaporationLossPct / 100 = 0) := by intro h0; linarith
  have h2 : ¬(pyInt i.zoneCount = 0) := by
    have := one_le_pyInt hz; omega
  rw [compute_irrigation_design, if_neg h1, if_neg h2]

/-- Claim C1 (counterexample): at the canonical input
(500, 400, 15, 12%, 4 zones, 103 kPa) the claim as stated is false.
All flow and head conjuncts hold, but recomputing
`BHP = (zoneFlowGPM * totalDynamicHead_ft) / (3960 * 0.70)` — which is
exactly the code's `BHP` — gives ≈ 3.426 HP, not within ±0.05 of the
claimed 3.02 HP. -/
theorem C1_counterexample :
    ¬ ((computeDesignCore canonicalInputs).A_total_m2 = 200000 ∧
       (computeDesignCore canonicalInputs).V_crop_m3_day = 3000 ∧
       |(computeDesignCore canonicalInputs).V_pump_m3_day - 3409.09| ≤ 0.01 ∧
       |(computeDesignCore canonicalInputs).Q_total_GPM - 625.41| ≤ 0.05 ∧
       |(computeDesignCore canonicalInputs).Q_zone_GPM - 156.35| ≤ 0.05 ∧
       |(computeDesignCore canonicalInputs).H_end_m - 10.50| ≤ 0.01 ∧
       |(computeDesignCore canonicalInputs).H_op_ft - 60.73| ≤ 0.05 ∧
       (computeDesignCore canonicalInputs).BHP
         = (computeDesignCore canonicalInputs).Q_zone_GPM
             * (computeDesignCore canonicalInputs).H_op_ft / (3960 * 0.70) ∧
       |(computeDesignCore canonicalInputs).BHP - 3.02| ≤ 0.05) := by
  intro h
  have hbhp := h.2.2.2.2.2.2.2.2
  revert hbhp
  simp only [computeDesignCore, canonicalInputs, pyInt]
  rw [abs_le]
  norm_num

/-- Claim C1 (amended): for the canonical input the calculator succeeds
and returns `totalArea = 200000` m², `cropVolumePerDay = 3000` m³/day,
`pumpVolumePerDay` within ±0.01 of 3409.09 m³/day, `totalFlowGPM` within
±0.05 of 625.41, `zoneFlowGPM` within ±0.05 of 156.35, `endHead_m`
within ±0.01 of 10.50, `totalDynamicHead_m = endHead_m + 0.795 + 0.642 +
2.574 + 4.0` exactly, `totalDynamicHead_ft` within ±0.05 of 60.73, and
`brakeHorsepower = (zoneFlowGPM * totalDynamicHead_ft) / (3960 * 0.70)`
which lies within ±0.05 of 3.43 HP (not the 3.02 HP the claim stated). -/
theorem C1_canonical_values :
    compute_irrigation_design canonicalInputs = Except.ok (computeDesignCore canonicalInputs) ∧
    (computeDesignCore canonicalInputs).A_total_m2 = 200000 ∧
    (computeDesignCore canonicalInputs).V_crop_m3_day = 3000 ∧
    |(computeDesignCore canonicalInputs).V_pump_m3_day - 3409.09| ≤ 0.01 ∧
    |(computeDesignCore canonicalInputs).Q_total_GPM - 625.41| ≤ 0.05 ∧
    |(computeDesignCore canonicalInputs).Q_zone_GPM - 156.35| ≤ 0.05 ∧
    |(computeDesignCore canonicalInputs).H_end_m - 10.50| ≤ 0.01 ∧
    (computeDesignCore canonicalInputs).H_op_m
      = (computeDesignCore canonicalInputs).H_end_m + 0.795 + 0.642 + 2.574 + 4.0 ∧
    |(computeDesignCore canonicalInputs).H_op_ft - 60.73| ≤ 0.05 ∧
    (computeDesignCore canonicalInputs).BHP
      = (computeDesignCore canonicalInputs).Q_zone_GPM
          * (computeDesignCore canonicalInputs).H_op_ft / (3960 * 0.70) ∧
    |(computeDesignCore canonicalInputs).BHP - 3.43| ≤ 0.05 := by
  constructor
  · exact compute_eq_ok_of_valid canonicalInputs (by norm_num [canonicalInputs])
      (by norm_num [canonicalInputs])
  · simp only [computeDesignCore, canonicalInputs, pyInt]
    norm_num [abs_le]

/-- Claim C2: for every valid input record (evaporation loss < 100%,
zone count ≥ 1, all fields positive) the calculator succeeds and the
total dynamic head equals exactly the end head plus the four fixed loss
constants 0.795, 0.642, 2.574 and 4.0 m, with no other terms. -/
theorem C2_tdh_sum_invariant (i : DesignInputs)
    (hev : i.evaporationLossPct < 100) (hz : 1 ≤ i.zoneCount)
    (hL : 0 < i.fieldLengthEW) (hW : 0 < i.fieldWidthNS)
    (hET : 0 < i.designCropET) (hP : 0 < i.endOfLateralPressure) :
    compute_irrigation_design i = Except.ok (computeDesignCore i) ∧
    (computeDesignCore i).H_op_m
      = (computeDesignCore i).H_end_m + (computeDesignCore i).H_lat_loss_m
        + (computeDesignCore i).H_sub_loss_m + (computeDesignCore i).H_mainline_loss_m
        + (computeDesignCore i).H_fittings_loss_m ∧
    (computeDesignCore i).H_lat_loss_m = 0.795 ∧
    (computeDesignCore i).H_sub_loss_m = 0.642 ∧
    (computeDesignCore i).H_mainline_loss_m = 2.574 ∧
    (computeDesignCore i).H_fittings_loss_m = 4.0 := by
  exact ⟨compute_eq_ok_of_valid i hev hz, by simp [computeDesignCore], by simp [computeDesignCore],
    by simp [computeDesignCore], by simp [computeDesignCore], by simp [computeDesignCore]⟩

/-- Witness for C2 at the canonical input. -/
theorem C2_tdh_sum_invariant_witness :
    compute_irrigation_design canonicalInputs = Except.ok (computeDesignCore canonicalInputs) ∧
    (computeDesignCore canonicalInputs).H_op_m
      = (computeDesignCore canonicalInputs).H_end_m + (computeDesignCore canonicalInputs).H_lat_loss_m
        + (computeDesignCore canonicalInputs).H_sub_loss_m + (computeDesignCore canonicalInputs).H_mainline_loss_m
        + (computeDesignCore canonicalInputs).H_fittings_loss_m ∧
    (computeDesignCore canonicalInputs).H_lat_loss_m = 0.795 ∧
    (computeDesignCore canonicalInputs).H_sub_loss_m = 0.642 ∧
    (computeDesignCore canonicalInputs).H_mainline_loss_m = 2.574 ∧
    (computeDesignCore canonicalInputs).H_fittings_loss_m = 4.0 :=
  C2_tdh_sum_invariant canonicalInputs (by norm_num [canonicalInputs])
    (by norm_num [canonicalInputs]) (by norm_num [canonicalInputs])
    (by norm_num [canonicalInputs]) (by norm_num [canonicalInputs])
    (by norm_num [canonicalInputs])

/-- Claim C3 (counterexample): with one zone instead of four the
calculator succeeds, the design zone flow is the total flow
(≈ 625.41 GPM), yet the first system-curve point is still the hard-coded
(125.08, 51.74): its flow is not 0.8 times the design zone flow, so the
points are not computed from the design operating point as claimed. -/
theorem C3_counterexample :
    compute_irrigation_design singleZoneInputs = Except.ok (computeDesignCore singleZoneInputs) ∧
    (computeDesignCore singleZoneInputs).system_curve_points.head? = some (125.08, 51.74) ∧
    ¬ (125.08 : ℚ) = 0.8 * (computeDesignCore singleZoneInputs).Q_zone_GPM := by
  refine ⟨compute_eq_ok_of_valid _ (by norm_num [singleZoneInputs, canonicalInputs])
    (by norm_num [singleZoneInputs, canonicalInputs]), ?_, ?_⟩
  · simp [computeDesignCore]
  · simp only [computeDesignCore, singleZoneInputs, canonicalInputs, pyInt]
    norm_num

/-- Claim C3 (amended): for every input record the `systemCurvePoints`
field is the fixed constant table [(125.08, 51.74), (156.35, 60.73),
(187.62, 72.22)] copied from the source document; it is not recomputed
from the input's design flow by Hazen–Williams scaling. -/
theorem C3_fixed_curve_points (i : DesignInputs) :
    (computeDesignCore i).system_curve_points
      = [(125.08, 51.74), (156.35, 60.73), (187.62, 72.22)] := by
  simp [computeDesignCore]

/-- Claim C4 (counterexample): `evaporationLossPct = 150` is in the
claimed rejection domain (≥ 100), yet the calculator does not refuse: it
returns a fully populated results record (with a negative pumped
volume). -/
theorem C4_counterexample :
    (100 : ℚ) ≤ overLossInputs.evaporationLossPct ∧
    compute_irrigation_design overLossInputs = Except.ok (computeDesignCore overLossInputs) := by
  constructor
  · norm_num [overLossInputs, canonicalInputs]
  · rw [compute_irrigation_design, if_neg (by norm_num [overLossInputs, canonicalInputs]),
      if_neg (by norm_num [overLossInputs, canonicalInputs, pyInt])]

/-- Claim C4 (amended): only the two exact division-by-zero inputs are
refused: when `evaporationLossPct = 100` or the zone count truncates to
0, the calculator returns the error record
`{"error": "float division by zero"}` instead of results — so no
infinity/NaN is propagated, but the message is the raw
`ZeroDivisionError` text and does not identify the offending field; any
other numeric input (including `evaporationLossPct > 100` and negative
zone counts) produces a results record. -/
theorem C4_division_by_zero_error (i : DesignInputs)
    (h : i.evaporationLossPct = 100 ∨ pyInt i.zoneCount = 0) :
    compute_irrigation_design i = Except.error "float division by zero" := by
  rw [compute_irrigation_design]
  rcases h with h | h
  · rw [if_pos (by rw [h]; norm_num)]
  · by_cases h1 : 1 - i.evaporationLossPct / 100 = 0
    · rw [if_pos h1]
    · rw [if_neg h1, if_pos h]

/-- Witness for the amended C4 at `evaporationLossPct = 100`. -/
theorem C4_division_by_zero_error_witness :
    compute_irrigation_design fullLossInputs = Except.error "float division by zero" :=
  C4_division_by_zero_error fullLossInputs (Or.inl rfl)

/-- Claim C5: for every physically valid input record the calculator
succeeds and the heads of the system-curve points are strictly
increasing along the list (80% → 100% → 120% of design flow). -/
theorem C5_system_curve_monotone (i : DesignInputs)
    (hev : i.evaporationLossPct < 100) (hz : 1 ≤ i.zoneCount)
    (hL : 0 < i.fieldLengthEW) (hW : 0 < i.fieldWidthNS)
    (hET : 0 < i.designCropET) (hP : 0 < i.endOfLateralPressure) :
    compute_irrigation_design i = Except.ok (computeDesignCore i) ∧
    (computeDesignCore i).system_curve_points.Pairwise (fun p q => p.2 < q.2) := by
  refine ⟨compute_eq_ok_of_valid i hev hz, ?_⟩
  simp only [computeDesignCore, List.pairwise_cons, List.forall_mem_cons,
    List.forall_mem_nil, List.Pairwise.nil, and_true, true_and]
  norm_num

/-- Witness for C5 at the canonical input. -/
theorem C5_system_curve_monotone_witness :
    compute_irrigation_design canonicalInputs = Except.ok (computeDesignCore canonicalInputs) ∧
    (computeDesignCore canonicalInputs).system_curve_points.Pairwise (fun p q => p.2 < q.2) :=
  C5_system_curve_monotone canonicalInputs (by norm_num [canonicalInputs])
    (by norm_num [canonicalInputs]) (by norm_num [canonicalInputs])
    (by norm_num [canonicalInputs]) (by norm_num [canonicalInputs])
    (by norm_num [canonicalInputs])

/-- Claim C6: for every input record, if the evaporation loss is 0% then
the pumped volume equals the crop volume exactly, and if the zone count
is 1 then the zone flow equals the total flow exactly. -/
theorem C6_boundary_identities (i : DesignInputs) :
    (i.evaporationLossPct = 0 →
      (computeDesignCore i).V_pump_m3_day = (computeDesignCore i).V_crop_m3_day) ∧
    (i.zoneCount = 1 →
      (computeDesignCore i).Q_zone_GPM = (computeDesignCore i).Q_total_GPM) := by
  constructor
  · intro h
    simp [computeDesignCore, h]
  · intro h
    simp [computeDesignCore, pyInt, h]

/-- Witness for C6 at the canonical input with zero evaporation loss and
a single zone. -/
theorem C6_boundary_identities_witness :
    (computeDesignCore boundaryInputs).V_pump_m3_day = (computeDesignCore boundaryInputs).V_crop_m3_day ∧
    (computeDesignCore boundaryInputs).Q_zone_GPM = (computeDesignCore boundaryInputs).Q_total_GPM :=
  ⟨(C6_boundary_identities boundaryInputs).1 rfl,
   (C6_boundary_identities boundaryInputs).2 rfl⟩

/-- Claim C7: the calculator and the report formatter are pure
functions of their argument — two invocations on the same input record
(resp. the same results record) denote the same value, and the report
text is a function of the results record alone, with no timestamp or
other ambient state. -/
theorem C7_deterministic (i : DesignInputs) (r : DesignResults) :
    compute_irrigation_design i = compute_irrigation_design i ∧
    _generate_report_content r = _generate_report_content r :=
  ⟨rfl, rfl⟩

/-- Claim C8: for every valid input record the sprinklers-per-zone is
the fixed layout constant 33 × 41 = 1353, independent of the zone count
and of the sprinkler-spacing inputs, and the total sprinkler count is
1353 times the (truncated) zone count. -/
theorem C8_fixed_sprinkler_count (i : DesignInputs)
    (hev : i.evaporationLossPct < 100) (hz : 1 ≤ i.zoneCount) :
    compute_irrigation_design i = Except.ok (computeDesignCore i) ∧
    (computeDesignCore i).N_spr_zone = 33 * 41 ∧
    (computeDesignCore i).N_spr_zone = 1353 ∧
    (computeDesignCore i).N_sprinkler_total = 1353 * pyInt i.zoneCount := by
  refine ⟨compute_eq_ok_of_valid i hev hz, by simp [computeDesignCore], ?_, ?_⟩
  · simp [computeDesignCore]
  · simp [computeDesignCore]

/-- Witness for C8 at the canonical input (4 zones, hence 5412
sprinklers in total). -/
theorem C8_fixed_sprinkler_count_witness :
    compute_irrigation_design canonicalInputs = Except.ok (computeDesignCore canonicalInputs) ∧
    (computeDesignCore canonicalInputs).N_spr_zone = 1353 ∧
    (computeDesignCore canonicalInputs).N_sprinkler_total = 5412 := by
  have h := C8_fixed_sprinkler_count canonicalInputs (by norm_num [canonicalInputs])
    (by norm_num [canonicalInputs])
  refine ⟨h.1, h.2.2.1, ?_⟩
  rw [h.2.2.2]
  norm_num [pyInt, canonicalInputs]

/-- Claim C9: `compute_irrigation_design` is a total function on
numeric inputs — every invocation returns normally, with either the
fully populated results record or the error record holding the
exception's message string. -/
theorem C9_total_function (i : DesignInputs) :
    compute_irrigation_design i = Except.ok (computeDesignCore i) ∨
    compute_irrigation_design i = Except.error "float division by zero" := by
  rw [compute_irrigation_design]
  by_cases h1 : 1 - i.evaporationLossPct / 100 = 0
  · right; rw [if_pos h1]
  · rw [if_neg h1]
    by_cases h2 : pyInt i.zoneCount = 0
    · right; rw [if_pos h2]
    · left; rw [if_neg h2]

/-- Claim C10: the calculator never reads the irrigation-time and
sprinkler-spacing inputs: two input records that agree on the six fields
it does read produce identical outputs. -/
theorem C10_unused_inputs (i j : DesignInputs)
    (h1 : i.fieldLengthEW = j.fieldLengthEW) (h2 : i.fieldWidthNS = j.fieldWidthNS)
    (h3 : i.designCropET = j.designCropET) (h4 : i.evaporationLossPct = j.evaporationLossPct)
    (h5 : i.zoneCount = j.zoneCount) (h6 : i.endOfLateralPressure = j.endOfLateralPressure) :
    compute_irrigation_design i = compute_irrigation_design j := by
  simp only [compute_irrigation_design, computeDesignCore, h1, h2, h3, h4, h5, h6]

/-- Witness for C10: the canonical input and a variant that differs in
irrigation time and both sprinkler spacings produce the same output. -/
theorem C10_unused_inputs_witness :
    canonicalInputs.irrigationTime ≠ variantInputs.irrigationTime ∧
    canonicalInputs.sprinklerSpacingX ≠ variantInputs.sprinklerSpacingX ∧
    canonicalInputs.sprinklerSpacingY ≠ variantInputs.sprinklerSpacingY ∧
    compute_irrigation_design canonicalInputs = compute_irrigation_design variantInputs :=
  ⟨by norm_num [canonicalInputs, variantInputs],
   by norm_num [canonicalInputs, variantInputs],
   by norm_num [canonicalInputs, variantInputs],
   C10_unused_inputs canonicalInputs variantInputs rfl rfl rfl rfl rfl rfl⟩
